import Mathlib

/-!
Shallow embedding of `react/features/app/actions.js` (jitsi-meet):
in-app navigation and remote configuration bootstrapping.

JavaScript values that configuration documents can take are modelled by
the inductive `Doc` (JSON-like values).  JavaScript objects are modelled
as association lists of string keys; object-literal spread is modelled by
iterated property assignment (`objAssign` / `objSpreadInto`), matching
the evaluation order of `{...a, ...b}`.  `localStorage` is an association
list from string keys to stored strings; a stored string is either the
`JSON.stringify` image of a document (`CacheStr.ser`) or a string that is
not a valid serialization (`CacheStr.raw`), on which `JSON.parse` throws.
The redux dispatches performed by a navigation are recorded as a trace of
`Action`s, in dispatch order; the promise returned by the navigation is
an `Except` value.  `setConfigFromURLParams` is an external collaborator
that mutates the config object in place from URL parameters; it is
modelled as an opaque field-map transformation `Env.urlOverride`.
-/

/-- Primitive JSON values appearing as configuration fields. -/
inductive JVal where
  | nullV : JVal
  | boolV : Bool → JVal
  | numV : Int → JVal
  | strV : String → JVal
  deriving DecidableEq, Repr

/-- A JavaScript object: string keys to primitive values.  Configuration
documents, profiles and URL overrides are such objects; the code under
study treats their values as opaque, so one level of structure is
modelled. -/
abbrev JObj := List (String × JVal)

/-- JSON-like JavaScript values (the shape of configuration documents):
a primitive or an object. -/
inductive Doc where
  | prim : JVal → Doc
  | objV : JObj → Doc
  deriving DecidableEq, Repr

/-- JavaScript truthiness of a `Doc` value: `null`, `false`, `0` and the
empty string are falsy, everything else (objects included) is truthy. -/
def docTruthy : Doc → Bool
  | Doc.prim JVal.nullV => false
  | Doc.prim (JVal.boolV b) => b
  | Doc.prim (JVal.numV n) => n != 0
  | Doc.prim (JVal.strV s) => s != ""
  | Doc.objV _ => true

/-- Own enumerable string-keyed properties of a value, as consumed by
object spread.  Objects contribute their fields; primitives contribute
none. -/
def docFields : Doc → JObj
  | Doc.objV fs => fs
  | Doc.prim _ => []

/-- First-match lookup in an association list: the value a JavaScript
object built with unique keys yields for key `k`. -/
def jsGet {α : Type} (m : List (String × α)) (k : String) : Option α :=
  match m with
  | [] => none
  | (k', v) :: rest => if k' = k then some v else jsGet rest k

/-- Last-match lookup: the binding that survives when an association list
is replayed as a sequence of property assignments (later wins). -/
def jsGetLast {α : Type} (m : List (String × α)) (k : String) : Option α :=
  jsGet m.reverse k

/-- Left-biased choice on `Option`. -/
def orElseO {α : Type} (a b : Option α) : Option α :=
  match a with
  | some v => some v
  | none => b

/-- JavaScript property assignment `m[k] = v`: overwrite the existing
binding in place (keys are unique in an object), otherwise append a new
binding at the end (insertion order). -/
def objAssign {α : Type} : List (String × α) → String → α → List (String × α)
  | [], k, v => [(k, v)]
  | (k', v') :: rest, k, v =>
      if k' = k then (k, v) :: rest else (k', v') :: objAssign rest k v

/-- Spread a source object into an accumulator object: assign each of the
source's properties, in order. -/
def objSpreadInto {α : Type} (m src : List (String × α)) :
    List (String × α) :=
  src.foldl (fun acc p => objAssign acc p.1 p.2) m

/-- The object literal `{...a, ...b}`. -/
def jsSpread {α : Type} (a b : List (String × α)) : List (String × α) :=
  objSpreadInto (objSpreadInto [] a) b

/-- A string held in `localStorage`: either the `JSON.stringify` image of
a document, or a string that is not the serialization of any document
(`JSON.parse` throws on it).  `JSON.stringify` never produces the empty
string, so a `ser` entry is always truthy. -/
inductive CacheStr where
  | ser : Doc → CacheStr
  | raw : String → CacheStr
  deriving DecidableEq, Repr

/-- The result of `JSON.parse` on a stored string: the document it
serializes, or `none` when parsing throws. -/
def jsonParse : CacheStr → Option Doc
  | CacheStr.ser v => some v
  | CacheStr.raw _ => none

/-- JavaScript truthiness of a stored string: only the empty string is
falsy. -/
def cacheTruthy : CacheStr → Bool
  | CacheStr.ser _ => true
  | CacheStr.raw s => s != ""

/-- The `localStorage` contents: keys to stored strings. -/
abbrev Storage := List (String × CacheStr)

/-- The value of `storage.getItem(k)` (`none` stands for JavaScript
`null`: no entry). -/
def storageGet (st : Storage) (k : String) : Option CacheStr :=
  jsGet st k

/-- The storage after `storage.setItem(k, v)`. -/
def storageSet (st : Storage) (k : String) (v : CacheStr) : Storage :=
  objAssign st k v

/-- The storage after `storage.removeItem(k)`. -/
def storageRemove (st : Storage) (k : String) : Storage :=
  st.filter (fun p => p.1 != k)

/-- The ASCII lowercase of a character (`toLowerCase` on the characters
this code lowercases: protocols and room names). -/
def charLower (c : Char) : Char :=
  if 'A' ≤ c ∧ c ≤ 'Z' then Char.ofNat (c.toNat + 32) else c

/-- The method `s.toLowerCase()` (ASCII). -/
def jsToLower (s : String) : String :=
  String.mk (s.data.map charLower)

/-- Decidable equality on promise settlements. -/
instance {ε α : Type} [DecidableEq ε] [DecidableEq α] :
    DecidableEq (Except ε α) := fun a b =>
  match a, b with
  | Except.ok x, Except.ok y =>
      if h : x = y then isTrue (by rw [h])
      else isFalse (fun hc => h (Except.ok.inj hc))
  | Except.ok _, Except.error _ => isFalse (fun hc => Except.noConfusion hc)
  | Except.error _, Except.ok _ => isFalse (fun hc => Except.noConfusion hc)
  | Except.error x, Except.error y =>
      if h : x = y then isTrue (by rw [h])
      else isFalse (fun hc => h (Except.error.inj hc))

/-- JavaScript truthiness of an optional string (`undefined` and `""`
are falsy). -/
def optStrTruthy : Option String → Bool
  | none => false
  | some s => s != ""

/-- The idiom `s || d` for an optional string `s`: the default `d` when
`s` is absent or empty. -/
def jsOrDefault (s : Option String) (d : String) : String :=
  match s with
  | none => d
  | some s' => if s' = "" then d else s'

/-- A location URI as consumed by `_appNavigateToMandatoryLocation`: the
normalizer guarantees `protocol` and `host` are present; `contextRoot`
and `room` may be absent. -/
structure Location where
  protocol : String
  host : String
  contextRoot : Option String
  room : Option String
  deriving DecidableEq, Repr

/-- Errors carried by rejected promises (opaque to this code). -/
abbrev JSError := String

/-- The external world an invocation runs against: whether the global
`APP` object is defined (full-app context), the global `window.config`
(compared by identity against the fetched document; in this value model
identity is equality), the settlement of the single `loadConfig(url)`
fetch this navigation performs, the `localStorage` contents, the
persisted profile returned by `getProfile(getState())`, and the in-place
config mutation performed by `setConfigFromURLParams`. -/
structure Env where
  appDefined : Bool
  windowConfig : Option Doc
  fetchResult : Except JSError Doc
  storage : Storage
  profile : JObj
  urlOverride : JObj → JObj

/-- A redux action dispatched during a navigation attempt. -/
inductive NavAction where
  | configWillLoad : Location → NavAction
  | setLocationURL : Location → NavAction
  | loadConfigError : JSError → Location → NavAction
  | setConfig : Option Doc → NavAction
  | setRoom : Option String → NavAction
  deriving DecidableEq, Repr

/-- Outcome of `_loadConfig`: the settlement of the returned promise
(`ok none` when the fetch was skipped and the promise resolved with
`undefined`), the `localStorage` contents afterwards, and the URL passed
to `loadConfig` when a fetch was performed. -/
structure LoadResult where
  outcome : Except JSError (Option Doc)
  storage : Storage
  fetched : Option String
  deriving Repr

/-- Outcome of `_appNavigateToMandatoryLocation`: the dispatched actions
in order, the settlement of the returned promise, and the
`localStorage` contents afterwards. -/
structure NavResult where
  actions : List NavAction
  result : Except JSError Unit
  storage : Storage
  deriving Repr

/-- The protocol actually used for the fetch: lowercased, and replaced
by `https:` when it is neither `http:` nor `https:`. -/
def normProtocol (p : String) : String :=
  let q := jsToLower p
  if q = "http:" ∨ q = "https:" then q else "https:"

/-- The base URL `` `${protocol}//${host}${contextRoot || '/'}` `` built
by `_loadConfig` after protocol normalization. -/
def baseURL (loc : Location) : String :=
  normProtocol loc.protocol ++ "//" ++ loc.host
    ++ jsOrDefault loc.contextRoot "/"

/-- The `localStorage` key `` `config.js/${baseURL}` `` under which the
fetched configuration is cached. -/
def configKey (loc : Location) : String :=
  "config.js/" ++ baseURL loc

/-- The URL passed to `loadConfig`: `` `${baseURL}config.js` `` with
`?room={room-lowercased}` appended when `room` is truthy. -/
def fetchURL (loc : Location) : String :=
  baseURL loc ++ "config.js"
    ++ (match loc.room with
        | none => ""
        | some r => if r = "" then "" else "?room=" ++ jsToLower r)

/-- Embedding of `_loadConfig({ contextRoot, host, protocol, room })`.
When there is no room and `APP` is undefined the fetch is skipped and the
promise resolves with `undefined`.  Otherwise `loadConfig(url)` is
awaited: on fulfilment the document is cached under `configKey` unless
`window.config` is defined and identical to it (cache-write failures are
swallowed and are not modelled); on rejection the cached entry is read
back, a truthy entry that parses becomes the resolution value, a truthy
entry that fails to parse is removed and the original error is
re-thrown, and a missing or falsy entry leaves the original error
re-thrown with the storage untouched. -/
def _loadConfig (env : Env) (loc : Location) : LoadResult :=
  if ¬ optStrTruthy loc.room ∧ ¬ env.appDefined then
    { outcome := Except.ok none, storage := env.storage, fetched := none }
  else
    match env.fetchResult with
    | Except.ok config =>
        { outcome := Except.ok (some config)
          storage :=
            if env.windowConfig = some config then env.storage
            else storageSet env.storage (configKey loc) (CacheStr.ser config)
          fetched := some (fetchURL loc) }
    | Except.error e =>
        match storageGet env.storage (configKey loc) with
        | some entry =>
            if cacheTruthy entry then
              match jsonParse entry with
              | some v =>
                  { outcome := Except.ok (some v), storage := env.storage,
                    fetched := some (fetchURL loc) }
              | none =>
                  { outcome := Except.error e,
                    storage := storageRemove env.storage (configKey loc),
                    fetched := some (fetchURL loc) }
            else
              { outcome := Except.error e, storage := env.storage,
                fetched := some (fetchURL loc) }
        | none =>
            { outcome := Except.error e, storage := env.storage,
              fetched := some (fetchURL loc) }

/-- Embedding of `_mergeConfigWithProfile(config, profile)`: `undefined`
when `config` is falsy, otherwise the shallow merge
`{...config, ...profile}`. -/
def _mergeConfigWithProfile (config : Option Doc)
    (profile : JObj) : Option Doc :=
  match config with
  | none => none
  | some c =>
      if docTruthy c then some (Doc.objV (jsSpread (docFields c) profile))
      else none

/-- The in-place mutation `setConfigFromURLParams(config, ..)` applied to
a document: object fields are rewritten by the opaque override; a
primitive is left unchanged (mutating it has no observable effect). -/
def applyURLOverride (env : Env) (c : Doc) : Doc :=
  match c with
  | Doc.objV fs => Doc.objV (env.urlOverride fs)
  | p => p

/-- The configuration value reaching the `setConfig` dispatch inside
`loadConfigSettled` on the no-error path: a truthy config has been
mutated in place by `setConfigFromURLParams` before `setLocationURL` is
dispatched; a falsy or absent one is passed through unchanged. -/
def settledConfig (env : Env) (config : Option Doc) : Option Doc :=
  match config with
  | some c => if docTruthy c then some (applyURLOverride env c) else some c
  | none => none

/-- Embedding of `_appNavigateToMandatoryLocation(dispatch, getState,
newLocation)` together with its inner `loadConfigSettled`: dispatches
`configWillLoad`, awaits `_loadConfig`, and settles.  On fulfilment the
config (when truthy) is first mutated by `setConfigFromURLParams`, the
location URL is committed, the profile merge is committed via
`setConfig`, and finally `setRoom(room)` is dispatched.  On rejection
the location URL is committed, `loadConfigError(error, location)` is
dispatched, and the error is re-thrown, so `setRoom` never runs. -/
def _appNavigateToMandatoryLocation (env : Env) (loc : Location) :
    NavResult :=
  let lr := _loadConfig env loc
  match lr.outcome with
  | Except.ok config =>
      { actions :=
          [NavAction.configWillLoad loc, NavAction.setLocationURL loc,
           NavAction.setConfig
             (_mergeConfigWithProfile (settledConfig env config) env.profile),
           NavAction.setRoom loc.room]
        result := Except.ok ()
        storage := lr.storage }
  | Except.error e =>
      { actions :=
          [NavAction.configWillLoad loc, NavAction.setLocationURL loc,
           NavAction.loadConfigError e loc]
        result := Except.error e
        storage := lr.storage }

/-! Lemmas about association-list objects. -/

theorem orElseO_none_left {α : Type} (b : Option α) : orElseO none b = b := rfl

theorem orElseO_none_right {α : Type} (a : Option α) : orElseO a none = a := by
  cases a <;> rfl

theorem orElseO_assoc {α : Type} (a b c : Option α) :
    orElseO (orElseO a b) c = orElseO a (orElseO b c) := by
  cases a <;> rfl

theorem jsGet_append {α : Type} (xs ys : List (String × α)) (k : String) :
    jsGet (xs ++ ys) k = orElseO (jsGet xs k) (jsGet ys k) := by
  induction xs with
  | nil => rfl
  | cons p rest ih =>
      obtain ⟨k0, v0⟩ := p
      by_cases h : k0 = k <;> simp [jsGet, h, ih, orElseO]

theorem jsGet_objAssign {α : Type} (m : List (String × α))
    (k : String) (v : α) (k' : String) :
    jsGet (objAssign m k v) k' = if k' = k then some v else jsGet m k' := by
  induction m with
  | nil =>
      by_cases h : k' = k
      · simp [objAssign, jsGet, h]
      · simp [objAssign, jsGet, h, Ne.symm h]
  | cons p rest ih =>
      obtain ⟨k0, v0⟩ := p
      by_cases h0 : k0 = k
      · subst h0
        simp only [objAssign, if_pos rfl]
        by_cases h1 : k' = k0
        · simp [jsGet, h1]
        · simp [jsGet, h1, Ne.symm h1]
      · simp only [objAssign, if_neg h0]
        by_cases h1 : k' = k
        · subst h1
          have h2 : ¬ k0 = k' := h0
          simp [jsGet, h2, ih]
        · by_cases h2 : k0 = k'
          · simp [jsGet, h2, ih, h1]
          · simp [jsGet, h2, ih, h1]

theorem jsGetLast_cons {α : Type} (k0 : String) (v0 : α)
    (rest : List (String × α)) (k : String) :
    jsGetLast ((k0, v0) :: rest) k =
      orElseO (jsGetLast rest k) (if k = k0 then some v0 else none) := by
  unfold jsGetLast
  rw [List.reverse_cons, jsGet_append]
  by_cases h : k0 = k
  · subst h
    simp [jsGet]
  · simp [jsGet, Ne.symm h, h]

theorem jsGet_objSpreadInto {α : Type} (src m : List (String × α))
    (k : String) :
    jsGet (objSpreadInto m src) k =
      orElseO (jsGetLast src k) (jsGet m k) := by
  induction src generalizing m with
  | nil => simp [objSpreadInto, jsGetLast, jsGet, orElseO]
  | cons p rest ih =>
      obtain ⟨k0, v0⟩ := p
      have hstep : objSpreadInto m ((k0, v0) :: rest)
          = objSpreadInto (objAssign m k0 v0) rest := rfl
      rw [hstep, ih, jsGet_objAssign, jsGetLast_cons, orElseO_assoc]
      by_cases h : k = k0 <;> simp [h, orElseO]

theorem jsGet_jsSpread {α : Type} (a b : List (String × α)) (k : String) :
    jsGet (jsSpread a b) k = orElseO (jsGetLast b k) (jsGetLast a k) := by
  unfold jsSpread
  rw [jsGet_objSpreadInto, jsGet_objSpreadInto]
  simp [jsGet, orElseO_none_right]

theorem storageGet_storageSet_self (st : Storage) (k : String)
    (v : CacheStr) : storageGet (storageSet st k v) k = some v := by
  unfold storageGet storageSet
  rw [jsGet_objAssign]
  simp

theorem storageGet_storageRemove_self (st : Storage) (k : String) :
    storageGet (storageRemove st k) k = none := by
  unfold storageGet storageRemove
  induction st with
  | nil => rfl
  | cons p rest ih =>
      obtain ⟨k0, v0⟩ := p
      by_cases h : k0 = k
      · simpa [h] using ih
      · simp [jsGet, h, ih]

/-! Lemmas about the navigation pipeline. -/

theorem docTruthy_applyURLOverride (env : Env) (c : Doc) :
    docTruthy (applyURLOverride env c) = docTruthy c := by
  cases c with
  | prim p => rfl
  | objV fs => rfl

theorem nav_of_outcome_ok (env : Env) (loc : Location) (c : Option Doc)
    (h : (_loadConfig env loc).outcome = Except.ok c) :
    _appNavigateToMandatoryLocation env loc =
      { actions :=
          [NavAction.configWillLoad loc, NavAction.setLocationURL loc,
           NavAction.setConfig
             (_mergeConfigWithProfile (settledConfig env c) env.profile),
           NavAction.setRoom loc.room]
        result := Except.ok ()
        storage := (_loadConfig env loc).storage } := by
  simp only [_appNavigateToMandatoryLocation, h]

theorem nav_of_outcome_error (env : Env) (loc : Location) (e : JSError)
    (h : (_loadConfig env loc).outcome = Except.error e) :
    _appNavigateToMandatoryLocation env loc =
      { actions :=
          [NavAction.configWillLoad loc, NavAction.setLocationURL loc,
           NavAction.loadConfigError e loc]
        result := Except.error e
        storage := (_loadConfig env loc).storage } := by
  simp only [_appNavigateToMandatoryLocation, h]

theorem loadConfig_fetched (env : Env) (loc : Location)
    (hgo : ¬ (¬ (optStrTruthy loc.room = true) ∧ ¬ (env.appDefined = true))) :
    (_loadConfig env loc).fetched = some (fetchURL loc) := by
  unfold _loadConfig
  rw [if_neg hgo]
  cases hf : env.fetchResult with
  | ok c => rfl
  | error e =>
      cases hs : storageGet env.storage (configKey loc) with
      | none => rfl
      | some entry =>
          by_cases ht : cacheTruthy entry = true
          · simp only [ht, if_true]
            cases hp : jsonParse entry <;> rfl
          · simp only [ht]
            rfl

theorem loadConfig_fetched_eq (env : Env) (loc : Location) (u : String)
    (h : (_loadConfig env loc).fetched = some u) : u = fetchURL loc := by
  by_cases hskip : ¬ (optStrTruthy loc.room = true) ∧ ¬ (env.appDefined = true)
  · unfold _loadConfig at h
    rw [if_pos hskip] at h
    exact Option.noConfusion h
  · rw [loadConfig_fetched env loc hskip] at h
    exact (Option.some.inj h).symm

theorem loadConfig_not_skipped (env : Env) (loc : Location)
    (hgo : optStrTruthy loc.room = true ∨ env.appDefined = true) :
    ¬ (¬ (optStrTruthy loc.room = true) ∧ ¬ (env.appDefined = true)) := by
  rcases hgo with h | h
  · exact fun hc => hc.1 h
  · exact fun hc => hc.2 h

/-! Concrete fixtures used to witness the theorems below. -/

def mkEnv (app : Bool) (wc : Option Doc) (fr : Except JSError Doc)
    (st : Storage) : Env :=
  { appDefined := app, windowConfig := wc, fetchResult := fr, storage := st,
    profile := [], urlOverride := id }

def docA : Doc := Doc.objV [("a", JVal.numV 1)]

def docB : Doc := Doc.objV [("b", JVal.numV 2)]

def locA : Location :=
  { protocol := "https:", host := "meet.example.com", contextRoot := some "/",
    room := some "test" }

def locNoRoom : Location :=
  { protocol := "https:", host := "meet.example.com", contextRoot := some "/",
    room := none }

/-! Claim theorems. -/

/-- C1 (counterexample): the claim says the cache key is
`"config/" + baseURL`; on a successful fetch the document is in fact
cached under `"config.js/" + baseURL`, nothing sits under the claimed
key, and an entry planted under the claimed key is not found by the
fallback read (the fetch error propagates). -/
theorem configCacheKey_counterexample :
    storageGet (_loadConfig (mkEnv true none (Except.ok docA) []) locA).storage
        ("config/" ++ "https://meet.example.com/") = none
    ∧ storageGet (_loadConfig (mkEnv true none (Except.ok docA) []) locA).storage
        ("config.js/" ++ "https://meet.example.com/") = some (CacheStr.ser docA)
    ∧ (_loadConfig
        (mkEnv true none (Except.error "net")
          [("config/" ++ "https://meet.example.com/", CacheStr.ser docB)])
        locA).outcome = Except.error "net" := by
  refine ⟨rfl, rfl, rfl⟩

/-- C1 (amended): for every location, the persistent-store key under
which the fetched configuration is cached equals
`"config.js/" + "{protocol}//{host}{contextRoot}"`, and this key does
not depend on the room. -/
theorem configCacheKey_amended (env : Env) (loc : Location) (d : Doc)
    (r : Option String)
    (hf : env.fetchResult = Except.ok d)
    (hw : env.windowConfig ≠ some d)
    (hgo : optStrTruthy loc.room = true ∨ env.appDefined = true) :
    configKey loc = "config.js/" ++ baseURL loc
    ∧ configKey { loc with room := r } = configKey loc
    ∧ storageGet (_loadConfig env loc).storage (configKey loc)
        = some (CacheStr.ser d) := by
  refine ⟨rfl, rfl, ?_⟩
  unfold _loadConfig
  rw [if_neg (loadConfig_not_skipped env loc hgo), hf]
  simp only
  rw [if_neg hw]
  exact storageGet_storageSet_self env.storage (configKey loc)
    (CacheStr.ser d)

/-- C1 (witness for the amended theorem). -/
theorem configCacheKey_amended_witness :
    configKey locA = "config.js/" ++ baseURL locA
    ∧ configKey { locA with room := none } = configKey locA
    ∧ storageGet
        (_loadConfig (mkEnv true none (Except.ok docB) []) locA).storage
        (configKey locA) = some (CacheStr.ser docB) :=
  configCacheKey_amended (mkEnv true none (Except.ok docB) []) locA docB none
    rfl (by decide) (Or.inl (by decide))

/-- C2 (counterexample): on a navigation with no room in a non-full-app
context, the config-loading step settles without an error, yet the
configuration committed by the `setConfig` dispatch is `undefined`
(the fetch was skipped and `_mergeConfigWithProfile` returns
`undefined` for a falsy config). -/
theorem committedConfig_counterexample :
    (_loadConfig (mkEnv false none (Except.ok docA) []) locNoRoom).outcome
      = Except.ok none
    ∧ (_appNavigateToMandatoryLocation (mkEnv false none (Except.ok docA) [])
        locNoRoom).result = Except.ok ()
    ∧ NavAction.setConfig none
        ∈ (_appNavigateToMandatoryLocation (mkEnv false none (Except.ok docA) [])
            locNoRoom).actions := by
  refine ⟨rfl, rfl, ?_⟩
  decide

/-- C2 (amended): for every navigation attempt, if the config-loading
step settles without an error with a truthy configuration, the
configuration committed to application state is never `undefined`; if it
settles with an error, no configuration commit occurs, and the error is
propagated to the caller after the location has been committed to
application state. -/
theorem committedConfig_amended (env : Env) (loc : Location) :
    (∀ c, (_loadConfig env loc).outcome = Except.ok (some c) →
      docTruthy c = true →
      ∃ m, (_appNavigateToMandatoryLocation env loc).actions
          = [NavAction.configWillLoad loc, NavAction.setLocationURL loc,
             NavAction.setConfig (some m), NavAction.setRoom loc.room]
        ∧ (_appNavigateToMandatoryLocation env loc).result = Except.ok ())
    ∧ (∀ e, (_loadConfig env loc).outcome = Except.error e →
        (_appNavigateToMandatoryLocation env loc).actions
          = [NavAction.configWillLoad loc, NavAction.setLocationURL loc,
             NavAction.loadConfigError e loc]
        ∧ (_appNavigateToMandatoryLocation env loc).result
            = Except.error e) := by
  constructor
  · intro c hc ht
    rw [nav_of_outcome_ok env loc (some c) hc]
    refine ⟨Doc.objV (jsSpread (docFields (applyURLOverride env c))
      env.profile), ?_, rfl⟩
    simp only [settledConfig, ht, if_true, _mergeConfigWithProfile,
      docTruthy_applyURLOverride]
  · intro e he
    rw [nav_of_outcome_error env loc e he]
    exact ⟨rfl, rfl⟩

/-- C2 (witness for the amended theorem): both clauses applied at
concrete inputs. -/
theorem committedConfig_amended_witness :
    (∃ m, (_appNavigateToMandatoryLocation (mkEnv true none (Except.ok docA) [])
        locA).actions
        = [NavAction.configWillLoad locA, NavAction.setLocationURL locA,
           NavAction.setConfig (some m), NavAction.setRoom locA.room]
      ∧ (_appNavigateToMandatoryLocation (mkEnv true none (Except.ok docA) [])
          locA).result = Except.ok ())
    ∧ ((_appNavigateToMandatoryLocation
          (mkEnv true none (Except.error "net") []) locA).actions
        = [NavAction.configWillLoad locA, NavAction.setLocationURL locA,
           NavAction.loadConfigError "net" locA]
      ∧ (_appNavigateToMandatoryLocation
          (mkEnv true none (Except.error "net") []) locA).result
          = Except.error "net") :=
  ⟨(committedConfig_amended (mkEnv true none (Except.ok docA) []) locA).1
      docA rfl (by decide),
   (committedConfig_amended (mkEnv true none (Except.error "net") []) locA).2
      "net" rfl⟩

/-- C5: for every navigation attempt whose config load settles with an
error `e` (no cache rescue), the reconciler commits the resolved
location, emits `loadConfigError (e, location)`, and the navigation
promise rejects with `e`; the dispatch trace is exactly
`configWillLoad`, `setLocationURL`, `loadConfigError`. -/
theorem loadError_commits_location_and_rejects (env : Env) (loc : Location)
    (e : JSError) (h : (_loadConfig env loc).outcome = Except.error e) :
    (_appNavigateToMandatoryLocation env loc).actions
      = [NavAction.configWillLoad loc, NavAction.setLocationURL loc,
         NavAction.loadConfigError e loc]
    ∧ (_appNavigateToMandatoryLocation env loc).result = Except.error e := by
  rw [nav_of_outcome_error env loc e h]
  exact ⟨rfl, rfl⟩

/-- C5 (witness): a rejected fetch with an empty cache. -/
theorem loadError_commits_location_and_rejects_witness :
    (_appNavigateToMandatoryLocation (mkEnv true none (Except.error "boom") [])
        locA).actions
      = [NavAction.configWillLoad locA, NavAction.setLocationURL locA,
         NavAction.loadConfigError "boom" locA]
    ∧ (_appNavigateToMandatoryLocation (mkEnv true none (Except.error "boom") [])
        locA).result = Except.error "boom" :=
  loadError_commits_location_and_rejects
    (mkEnv true none (Except.error "boom") []) locA "boom" rfl

/-- C3: for every location on which a fetch is performed, if the fetch
fails with error `e` and the cache holds an entry for the deployment's
key that deserializes successfully to `d`, then `_loadConfig` resolves
with `d` (and leaves the storage untouched); `e` does not propagate. -/
theorem cacheFallback_resolves (env : Env) (loc : Location) (e : JSError)
    (entry : CacheStr) (d : Doc)
    (hf : env.fetchResult = Except.error e)
    (hs : storageGet env.storage (configKey loc) = some entry)
    (hp : jsonParse entry = some d)
    (hgo : optStrTruthy loc.room = true ∨ env.appDefined = true) :
    (_loadConfig env loc).outcome = Except.ok (some d)
    ∧ (_loadConfig env loc).storage = env.storage := by
  cases entry with
  | raw s => exact absurd hp (by simp [jsonParse])
  | ser v =>
      have hv : v = d := by simpa [jsonParse] using hp
      subst hv
      unfold _loadConfig
      rw [if_neg (loadConfig_not_skipped env loc hgo)]
      simp only [hf, hs, cacheTruthy, jsonParse, if_true]
      exact ⟨trivial, trivial⟩

/-- C3 (witness): fetch rejected, cache holds a valid serialization. -/
theorem cacheFallback_resolves_witness :
    (_loadConfig
        (mkEnv true none (Except.error "net")
          [(configKey locA, CacheStr.ser docB)]) locA).outcome
      = Except.ok (some docB)
    ∧ (_loadConfig
        (mkEnv true none (Except.error "net")
          [(configKey locA, CacheStr.ser docB)]) locA).storage
      = (mkEnv true none (Except.error "net")
          [(configKey locA, CacheStr.ser docB)]).storage :=
  cacheFallback_resolves
    (mkEnv true none (Except.error "net") [(configKey locA, CacheStr.ser docB)])
    locA "net" (CacheStr.ser docB) docB rfl (by decide) rfl (Or.inr rfl)

/-- C4 (counterexample): an empty-string cache entry exists and fails to
deserialize, yet it is not removed — the code only attempts
`JSON.parse` (and hence only reaches `removeItem`) when the entry is
truthy, and the empty string is falsy.  The load still rejects with the
original error. -/
theorem corruptCache_counterexample :
    storageGet
        (mkEnv true none (Except.error "net")
          [(configKey locA, CacheStr.raw "")]).storage (configKey locA)
      = some (CacheStr.raw "")
    ∧ jsonParse (CacheStr.raw "") = none
    ∧ (_loadConfig
        (mkEnv true none (Except.error "net")
          [(configKey locA, CacheStr.raw "")]) locA).outcome
      = Except.error "net"
    ∧ storageGet
        (_loadConfig
          (mkEnv true none (Except.error "net")
            [(configKey locA, CacheStr.raw "")]) locA).storage
        (configKey locA)
      = some (CacheStr.raw "") := by
  refine ⟨by decide, rfl, rfl, by decide⟩

/-- C4 (amended): for every location on which a fetch is performed, if
the fetch fails with error `e` and the cache entry for the deployment's
key exists, is truthy (non-empty), and fails to deserialize, then the
cache entry is removed and the load rejects with the original error
`e`. -/
theorem corruptCache_removed (env : Env) (loc : Location) (e : JSError)
    (entry : CacheStr)
    (hf : env.fetchResult = Except.error e)
    (hs : storageGet env.storage (configKey loc) = some entry)
    (hraw : jsonParse entry = none)
    (ht : cacheTruthy entry = true)
    (hgo : optStrTruthy loc.room = true ∨ env.appDefined = true) :
    (_loadConfig env loc).outcome = Except.error e
    ∧ storageGet (_loadConfig env loc).storage (configKey loc) = none := by
  unfold _loadConfig
  rw [if_neg (loadConfig_not_skipped env loc hgo)]
  simp only [hf, hs, ht, if_true, hraw]
  exact ⟨trivial, storageGet_storageRemove_self env.storage (configKey loc)⟩

/-- C4 (witness for the amended theorem): a non-empty corrupt entry is
removed and the error propagates. -/
theorem corruptCache_removed_witness :
    (_loadConfig
        (mkEnv true none (Except.error "net")
          [(configKey locA, CacheStr.raw "oops")]) locA).outcome
      = Except.error "net"
    ∧ storageGet
        (_loadConfig
          (mkEnv true none (Except.error "net")
            [(configKey locA, CacheStr.raw "oops")]) locA).storage
        (configKey locA)
      = none :=
  corruptCache_removed
    (mkEnv true none (Except.error "net") [(configKey locA, CacheStr.raw "oops")])
    locA "net" (CacheStr.raw "oops") rfl (by decide) rfl rfl (Or.inr rfl)

/-- C6: for every location for which a fetch is performed, the fetched
resource URL equals
`{protocol-lowercased}//{host}{contextRoot}config.js`, with contextRoot
replaced by `/` when absent (or empty, which JavaScript treats as
absent), the protocol replaced by `https:` when it is neither `http:`
nor `https:`, and `?room={room-lowercased}` appended exactly when room
is set (present and non-empty). -/
theorem fetchURL_format (env : Env) (loc : Location) (u : String)
    (h : (_loadConfig env loc).fetched = some u) :
    u = (if jsToLower loc.protocol = "http:"
            ∨ jsToLower loc.protocol = "https:"
         then jsToLower loc.protocol else "https:")
        ++ "//" ++ loc.host
        ++ (match loc.contextRoot with
            | none => "/"
            | some s => if s = "" then "/" else s)
        ++ "config.js"
        ++ (match loc.room with
            | none => ""
            | some r => if r = "" then "" else "?room=" ++ jsToLower r) := by
  have h2 := loadConfig_fetched_eq env loc u h
  subst h2
  cases loc with
  | mk p host cr room =>
      cases cr <;> cases room <;>
        simp [fetchURL, baseURL, normProtocol, jsOrDefault]

/-- C6 (witness): the URL fetched for `locA`. -/
theorem fetchURL_format_witness :
    "https://meet.example.com/config.js?room=test"
      = (if jsToLower locA.protocol = "http:"
            ∨ jsToLower locA.protocol = "https:"
         then jsToLower locA.protocol else "https:")
        ++ "//" ++ locA.host
        ++ (match locA.contextRoot with
            | none => "/"
            | some s => if s = "" then "/" else s)
        ++ "config.js"
        ++ (match locA.room with
            | none => ""
            | some r => if r = "" then "" else "?room=" ++ jsToLower r) :=
  fetchURL_format (mkEnv true none (Except.ok docA) []) locA
    "https://meet.example.com/config.js?room=test" (by decide)

/-- C7: for every location with no room, when the global `APP` is
undefined (not the full-app context), `_loadConfig` performs no fetch
and resolves immediately with an absent configuration, while the
resolved location is still committed via `setLocationURL`. -/
theorem skipFetch_noRoom (env : Env) (loc : Location)
    (hr : loc.room = none) (ha : env.appDefined = false) :
    (_loadConfig env loc).fetched = none
    ∧ (_loadConfig env loc).outcome = Except.ok none
    ∧ NavAction.setLocationURL loc
        ∈ (_appNavigateToMandatoryLocation env loc).actions := by
  have hcond : ¬ optStrTruthy loc.room = true ∧ ¬ env.appDefined = true := by
    constructor
    · rw [hr]
      simp [optStrTruthy]
    · rw [ha]
      simp
  have hload : _loadConfig env loc
      = { outcome := Except.ok none, storage := env.storage,
          fetched := none } := by
    unfold _loadConfig
    rw [if_pos hcond]
  refine ⟨by rw [hload], by rw [hload], ?_⟩
  rw [nav_of_outcome_ok env loc none (by rw [hload])]
  simp

/-- C7 (witness): even with a would-be failing fetch in the environment,
the no-room lightweight navigation resolves with no config and commits
the location. -/
theorem skipFetch_noRoom_witness :
    (_loadConfig (mkEnv false none (Except.error "x") []) locNoRoom).fetched
      = none
    ∧ (_loadConfig (mkEnv false none (Except.error "x") []) locNoRoom).outcome
      = Except.ok none
    ∧ NavAction.setLocationURL locNoRoom
        ∈ (_appNavigateToMandatoryLocation (mkEnv false none (Except.error "x") [])
            locNoRoom).actions :=
  skipFetch_noRoom (mkEnv false none (Except.error "x") []) locNoRoom rfl rfl

def cfgW : JObj := [("a", JVal.numV 1), ("b", JVal.numV 2)]

def profW : JObj := [("b", JVal.numV 3), ("c", JVal.numV 4)]

/-- C8: the merge of a config object with a profile object is the
spread `{...config, ...profile}`; every key present in the profile maps
to the profile's value in the result (so keys present in both take the
profile value, and keys present only in the profile appear), and every
key present only in the config is preserved unchanged. -/
theorem merge_profile_wins (config profile : JObj) (k : String) :
    _mergeConfigWithProfile (some (Doc.objV config)) profile
        = some (Doc.objV (jsSpread config profile))
    ∧ (∀ v, jsGetLast profile k = some v →
        jsGet (jsSpread config profile) k = some v)
    ∧ (∀ v, jsGetLast profile k = none → jsGetLast config k = some v →
        jsGet (jsSpread config profile) k = some v) := by
  refine ⟨rfl, ?_, ?_⟩
  · intro v hv
    rw [jsGet_jsSpread, hv]
    rfl
  · intro v hnone hv
    rw [jsGet_jsSpread, hnone, hv]
    rfl

/-- C8 (witness): all three merge clauses at concrete objects — a key
in both takes the profile value, a key only in the profile appears, a
key only in the config is preserved. -/
theorem merge_profile_wins_witness :
    _mergeConfigWithProfile (some (Doc.objV cfgW)) profW
        = some (Doc.objV (jsSpread cfgW profW))
    ∧ jsGet (jsSpread cfgW profW) "b" = some (JVal.numV 3)
    ∧ jsGet (jsSpread cfgW profW) "c" = some (JVal.numV 4)
    ∧ jsGet (jsSpread cfgW profW) "a" = some (JVal.numV 1) :=
  ⟨(merge_profile_wins cfgW profW "b").1,
   (merge_profile_wins cfgW profW "b").2.1 (JVal.numV 3) (by decide),
   (merge_profile_wins cfgW profW "c").2.1 (JVal.numV 4) (by decide),
   (merge_profile_wins cfgW profW "a").2.2 (JVal.numV 1) (by decide)
     (by decide)⟩

/-- C9 (counterexample): the fetch succeeds with `docA` while
`window.config` is identical to it, so no cache write happens; the
stale entry for the deployment's key deserializes to `docB`, which is
not deep-equal to the fetched document. -/
theorem cacheRoundTrip_counterexample :
    (_loadConfig
        (mkEnv true (some docA) (Except.ok docA)
          [(configKey locA, CacheStr.ser docB)]) locA).outcome
      = Except.ok (some docA)
    ∧ storageGet
        (_loadConfig
          (mkEnv true (some docA) (Except.ok docA)
            [(configKey locA, CacheStr.ser docB)]) locA).storage
        (configKey locA)
      = some (CacheStr.ser docB)
    ∧ jsonParse (CacheStr.ser docB) = some docB
    ∧ docB ≠ docA := by
  refine ⟨rfl, by decide, rfl, by decide⟩

/-- C9 (amended): for every location on which a fetch is performed, if
the fetch succeeds with document `d` and `d` is not identical to the
pre-existing global `window.config`, then the cache entry for the
deployment's key, when read back and deserialized, is deep-equal to
`d`. -/
theorem cacheRoundTrip_amended (env : Env) (loc : Location) (d : Doc)
    (hf : env.fetchResult = Except.ok d)
    (hw : env.windowConfig ≠ some d)
    (hgo : optStrTruthy loc.room = true ∨ env.appDefined = true) :
    (_loadConfig env loc).outcome = Except.ok (some d)
    ∧ ∃ entry, storageGet (_loadConfig env loc).storage (configKey loc)
          = some entry
        ∧ jsonParse entry = some d := by
  unfold _loadConfig
  rw [if_neg (loadConfig_not_skipped env loc hgo), hf]
  simp only
  refine ⟨trivial, CacheStr.ser d, ?_, rfl⟩
  rw [if_neg hw]
  exact storageGet_storageSet_self env.storage (configKey loc)
    (CacheStr.ser d)

/-- C9 (witness for the amended theorem). -/
theorem cacheRoundTrip_amended_witness :
    (_loadConfig (mkEnv true none (Except.ok docA) []) locA).outcome
      = Except.ok (some docA)
    ∧ ∃ entry, storageGet
          (_loadConfig (mkEnv true none (Except.ok docA) []) locA).storage
          (configKey locA)
        = some entry
      ∧ jsonParse entry = some docA :=
  cacheRoundTrip_amended (mkEnv true none (Except.ok docA) []) locA docA
    rfl (by decide) (Or.inr rfl)

/-- C10: the room of the resolved location is committed (a `setRoom`
dispatch) exactly when the config-loading step settles successfully
(including the cache-fallback and fetch-skipped paths, which also
settle as `ok`), and the commit is the last dispatch, after the
`setLocationURL` and `setConfig` commits; when the config load errors
without cache rescue, no `setRoom` is ever dispatched. -/
theorem setRoom_exactly_on_success (env : Env) (loc : Location) :
    (∀ c, (_loadConfig env loc).outcome = Except.ok c →
      (_appNavigateToMandatoryLocation env loc).actions
        = [NavAction.configWillLoad loc, NavAction.setLocationURL loc,
           NavAction.setConfig
             (_mergeConfigWithProfile (settledConfig env c) env.profile),
           NavAction.setRoom loc.room]
      ∧ (_appNavigateToMandatoryLocation env loc).result = Except.ok ())
    ∧ (∀ e, (_loadConfig env loc).outcome = Except.error e →
        ∀ r, NavAction.setRoom r
          ∉ (_appNavigateToMandatoryLocation env loc).actions) := by
  constructor
  · intro c hc
    rw [nav_of_outcome_ok env loc c hc]
    exact ⟨rfl, rfl⟩
  · intro e he r
    rw [nav_of_outcome_error env loc e he]
    simp

/-- C10 (witness): a successful fetch ends the trace with `setRoom`
after the location and config commits; a failed one dispatches no
`setRoom` at all. -/
theorem setRoom_exactly_on_success_witness :
    ((_appNavigateToMandatoryLocation (mkEnv true none (Except.ok docB) [])
        locA).actions
      = [NavAction.configWillLoad locA, NavAction.setLocationURL locA,
         NavAction.setConfig
           (_mergeConfigWithProfile
             (settledConfig (mkEnv true none (Except.ok docB) []) (some docB))
             (mkEnv true none (Except.ok docB) []).profile),
         NavAction.setRoom locA.room]
      ∧ (_appNavigateToMandatoryLocation (mkEnv true none (Except.ok docB) [])
          locA).result = Except.ok ())
    ∧ NavAction.setRoom locA.room
        ∉ (_appNavigateToMandatoryLocation
            (mkEnv true none (Except.error "e") []) locA).actions :=
  ⟨(setRoom_exactly_on_success (mkEnv true none (Except.ok docB) []) locA).1
      (some docB) rfl,
   (setRoom_exactly_on_success (mkEnv true none (Except.error "e") []) locA).2
      "e" rfl locA.room⟩
